import Mathlib

/-!
Shallow embedding of `src/protocols/write/src/write.py` (record builder and
write facade). Python instance attributes that may be unset are modelled as
`Option` fields: reading an unset attribute raises `AttributeError`. Each
mutating method is a function from the receiver's state to the pair of the
post-call state and an optional raised error; on an error the returned state
carries exactly the mutations performed before the raise. `Exception(msg)`
raised by the source's own state checks is `Err.exception msg`; CPython-level
failures are `Err.attributeError`, `Err.unboundLocalError`, `Err.typeError`.
-/

namespace WritePy

/-- Errors a modelled call can raise. `attributeError a` is CPython's
AttributeError on reading the unset attribute `a`; `unboundLocalError v` is
UnboundLocalError on the local variable `v`; `typeError` is raised by CPython
itself (for example when `__init__` returns a non-None value); `exception msg`
is the source's own `raise Exception(msg)`. -/
inductive Err where
  | attributeError (attr : String)
  | unboundLocalError (var : String)
  | typeError (msg : String)
  | exception (msg : String)
deriving DecidableEq, Repr

/-- Standard UTF-8 encoding of one character's code point. -/
def utf8Bytes (c : Char) : List Nat :=
  let n := c.toNat
  if n < 128 then [n]
  else if n < 2048 then [192 + n / 64, 128 + n % 64]
  else if n < 65536 then [224 + n / 4096, 128 + (n / 64) % 64, 128 + n % 64]
  else [240 + n / 262144, 128 + (n / 4096) % 64, 128 + (n / 64) % 64, 128 + n % 64]

/-- UTF-8 bytes of a Python `str`, as produced by `content.encode('utf-8')`. -/
def strBytes (s : String) : List Nat :=
  s.data.flatMap utf8Bytes

/-- Lower-case hex digit for a value below 16. -/
def hexChar (n : Nat) : Char :=
  match n with
  | 0 => '0' | 1 => '1' | 2 => '2' | 3 => '3' | 4 => '4'
  | 5 => '5' | 6 => '6' | 7 => '7' | 8 => '8' | 9 => '9'
  | 10 => 'a' | 11 => 'b' | 12 => 'c' | 13 => 'd' | 14 => 'e'
  | _ => 'f'

/-- Fixed-width 32-digit lower-case hex rendering of a natural number,
most significant digit first, as `md5.hexdigest()` formats its state. -/
def toHex32 (n : Nat) : String :=
  String.mk (((List.range 32).reverse).map (fun i => hexChar ((n / 16 ^ i) % 16)))

/-- Modelled from the spec: `hashlib.md5` is an external library collaborator
(the Digest Accumulator of section 4.1), not code of this repository. Its
accumulator state is modelled as the list of all bytes fed so far, and
`hexdigest` as a fixed deterministic lower-case-hex function of that list.
The claims use only that the digest is a deterministic function of the fed
byte sequence, which holds for any such function. -/
def md5hex (bs : List Nat) : String :=
  toHex32 (bs.foldl (fun a b => (a * 131 + b + 17) % (2 ^ 128)) 0)

/-- State of a `Metadata` instance. The class body's annotations
(`key`, `feature`, `author`, `created_at`, `size`) create no attributes;
every field starts unset and only explicit assignments set it. The source's
`Metadata.__init__` assigns only `created_at`; no statement anywhere in the
source assigns `size`. Timestamps are modelled as an abstract `Nat` supplied
for `time.time()`. -/
structure Metadata where
  key : Option String := none
  feature : Option String := none
  author : Option String := none
  created_at : Option Nat := none
  size : Option Nat := none
deriving DecidableEq, Repr

/-- Effect of the body of `Metadata.__init__` on a fresh instance: it sets
`created_at` to the current time and nothing else. -/
def Metadata_new (now : Nat) : Metadata :=
  { created_at := some now }

/-- The call `Metadata()`: CPython runs `__init__`, whose body sets
`created_at` and then executes `return self`; `type.__call__` sees the
non-None return value and raises TypeError, so the constructed object is
never delivered to the caller. -/
def Metadata_call (now : Nat) : Option Metadata × Option Err :=
  let m := Metadata_new now
  ((none : Option Metadata),
    some (Err.typeError ("Metadata.__init__ returned non-None with created_at " ++ toString m.created_at)))

/-- `Metadata.get_info`: the f-string reads `self.feature`, `self.author`,
`self.created_at`, `self.size` in that order (AttributeError on the first
unset one) and renders
`feature:<F>;author:<A>;create_at:<T>;size:<N>;`. -/
def Metadata_get_info (m : Metadata) : Except Err String :=
  match m.feature with
  | none => .error (Err.attributeError "feature")
  | some f =>
    match m.author with
    | none => .error (Err.attributeError "author")
    | some a =>
      match m.created_at with
      | none => .error (Err.attributeError "created_at")
      | some t =>
        match m.size with
        | none => .error (Err.attributeError "size")
        | some n =>
          .ok ("feature:" ++ f ++ ";author:" ++ a ++ ";create_at:" ++ toString t
            ++ ";size:" ++ toString n ++ ";")

/-- `Metadata.__str__`: reads `self.key` (AttributeError if unset), then
appends `get_info()`, rendering `key:<K>;` followed by the info fields. -/
def Metadata_str (m : Metadata) : Except Err String :=
  match m.key with
  | none => .error (Err.attributeError "key")
  | some k =>
    match Metadata_get_info m with
    | .error e => .error e
    | .ok info => .ok ("key:" ++ k ++ ";" ++ info)

/-- State of a `RecordBuilder` instance. `RecordBase`'s annotations create no
attributes, so all four fields start unset on a fresh instance. `complete`
models the name-mangled `_RecordBuilder__complete` flag; `key_builder` models
the md5 accumulator as the list of bytes fed to it so far. -/
structure RecordBuilderState where
  meta : Option Metadata := none
  body : Option String := none
  key_builder : Option (List Nat) := none
  complete : Option Bool := none
deriving DecidableEq, Repr

/-- `size` attribute of the builder's `Metadata`, when both are set. -/
def metaSize (s : RecordBuilderState) : Option Nat :=
  s.meta.bind Metadata.size

/-- `feature` attribute of the builder's `Metadata`, when both are set. -/
def metaFeature (s : RecordBuilderState) : Option String :=
  s.meta.bind Metadata.feature

/-- `key` attribute of the builder's `Metadata`, when both are set. -/
def metaKey (s : RecordBuilderState) : Option String :=
  s.meta.bind Metadata.key

/-- First statement of `RecordBuilder.__init__`:
`self.meta.feature = feature`. It reads `self.meta`, which no code has
assigned on a fresh instance, so it raises AttributeError there; on a state
whose `meta` is set it stores `feature` on that object. -/
def init_stmt1 (s : RecordBuilderState) (feature : String) :
    RecordBuilderState × Option Err :=
  match s.meta with
  | none => (s, some (Err.attributeError "meta"))
  | some m => ({ s with meta := some { m with feature := some feature } }, none)

/-- Statements 2-4 of `RecordBuilder.__init__` and its `return`:
`self.meta = Metadata()` (which raises TypeError, see `Metadata_call`),
`self.key_builder = md5()`, `self.__complete = False`, and
`return self.__add_author` - a non-None return from `__init__`, which CPython
rejects with TypeError even when reached. -/
def init_rest (s : RecordBuilderState) (now : Nat) :
    RecordBuilderState × Option Err :=
  match Metadata_call now with
  | (_, some e) => (s, some e)
  | (om, none) =>
    let s2 := { s with meta := om }
    let s3 := { s2 with key_builder := some [] }
    let s4 := { s3 with complete := some false }
    (s4, some (Err.typeError "RecordBuilder.__init__ returned non-None"))

/-- The call `RecordBuilder(feature)`: a fresh instance with no attributes,
then the `__init__` body. The first statement always raises AttributeError,
so construction never succeeds and the later statements never run. -/
def RecordBuilder_call (feature : String) (now : Nat) :
    RecordBuilderState × Option Err :=
  let s0 : RecordBuilderState := {}
  match init_stmt1 s0 feature with
  | (s1, some e) => (s1, some e)
  | (s1, none) => init_rest s1 now

/-- `RecordBuilder.__add_author`: raises on a completed builder, otherwise
executes `self.meta.author = author` (AttributeError when `meta` is unset). -/
def add_author (s : RecordBuilderState) (author : String) :
    RecordBuilderState × Option Err :=
  match s.complete with
  | none => (s, some (Err.attributeError "_RecordBuilder__complete"))
  | some true => (s, some (Err.exception "already complete"))
  | some false =>
    match s.meta with
    | none => (s, some (Err.attributeError "meta"))
    | some m => ({ s with meta := some { m with author := some author } }, none)

/-- `RecordBuilder.append_body`: after the completeness check,
`self.body += content` reads the never-assigned `body` attribute
(AttributeError on any state the source can produce; on a state whose `body`
is set, the concatenation is stored), and then
`encode += content.encode('utf-8')` reads the unbound local `encode` and
raises UnboundLocalError. `self.key_builder.update(encode)` is never reached,
and no statement of the method touches `Metadata.size`. -/
def append_body (s : RecordBuilderState) (content : String) :
    RecordBuilderState × Option Err :=
  match s.complete with
  | none => (s, some (Err.attributeError "_RecordBuilder__complete"))
  | some true => (s, some (Err.exception "already complete"))
  | some false =>
    match s.body with
    | none => (s, some (Err.attributeError "body"))
    | some b =>
      let s1 := { s with body := some (b ++ content) }
      (s1, some (Err.unboundLocalError "encode"))

/-- `RecordBuilder.complete`: raises `Exception('already complete')` before
any mutation when the flag is set; otherwise evaluates
`self.key_builder.hexdigest()` (right-hand side first), assigns it to
`self.meta.key`, and sets the flag. -/
def complete (s : RecordBuilderState) : RecordBuilderState × Option Err :=
  match s.complete with
  | none => (s, some (Err.attributeError "_RecordBuilder__complete"))
  | some true => (s, some (Err.exception "already complete"))
  | some false =>
    match s.key_builder with
    | none => (s, some (Err.attributeError "key_builder"))
    | some kb =>
      match s.meta with
      | none => (s, some (Err.attributeError "meta"))
      | some m =>
        let s1 := { s with meta := some { m with key := some (md5hex kb) } }
        ({ s1 with complete := some true }, none)

/-- `RecordBuilder.result`: raises `Exception('not complete')` on an
unsealed builder; otherwise the f-string evaluates `self.meta.__str__()`
and then reads `self.body`, rendering the metadata line followed by
`body:<B>` and a newline. The method mutates nothing. -/
def result (s : RecordBuilderState) : Except Err String :=
  match s.complete with
  | none => .error (Err.attributeError "_RecordBuilder__complete")
  | some false => .error (Err.exception "not complete")
  | some true =>
    match s.meta with
    | none => .error (Err.attributeError "meta")
    | some m =>
      match Metadata_str m with
      | .error e => .error e
      | .ok ms =>
        match s.body with
        | none => .error (Err.attributeError "body")
        | some b => .ok (ms ++ "body:" ++ b ++ "\n")

/-- The sink is an append-only list of written strings (the file opened in
append mode). `write(path, feature, author, content)` runs the chain
`RecordBuilder(feature)(author).append_body(content).complete()`, writes
`record.result()` and returns `record.meta.key`. The constructor call raises
before anything else happens, so the `with` block exits with the error and
the sink is untouched; the rest of the chain is modelled as the intended
continuation calls (CPython discards `__init__`'s return value, so the
second call of the chain could not even be reached if construction
succeeded). Returns (sink after the call, returned key, raised error). -/
def write (sink : List String) (feature author content : String) (now : Nat) :
    List String × Option String × Option Err :=
  match RecordBuilder_call feature now with
  | (_, some e) => (sink, none, some e)
  | (b0, none) =>
    match add_author b0 author with
    | (_, some e) => (sink, none, some e)
    | (b1, none) =>
      match append_body b1 content with
      | (_, some e) => (sink, none, some e)
      | (b2, none) =>
        match complete b2 with
        | (_, some e) => (sink, none, some e)
        | (b3, none) =>
          match result b3 with
          | .error e => (sink, none, some e)
          | .ok line =>
            match b3.meta with
            | none => (sink ++ [line], none, some (Err.attributeError "meta"))
            | some m =>
              match m.key with
              | none => (sink ++ [line], none, some (Err.attributeError "key"))
              | some k => (sink ++ [line], some k, none)

/-- The `append` closure returned by `write_stream`: forwards to
`record.append_body(content)` on the captured builder state. -/
def stream_append (record : RecordBuilderState) (content : String) :
    RecordBuilderState × Option Err :=
  append_body record content

/-- The `complete` closure returned by `write_stream`: calls
`record.complete()`, writes `record.result()` to the captured file handle
(`fileOpen` records whether that handle is still open - the `with` block of
`write_stream` closes it as soon as `write_stream` returns, so a later call
would raise ValueError, modelled as a typeError-kind failure), and returns
`record.meta.key`. Returns (builder state, sink, returned key, error). -/
def stream_complete (record : RecordBuilderState) (sink : List String)
    (fileOpen : Bool) :
    RecordBuilderState × List String × Option String × Option Err :=
  match complete record with
  | (r1, some e) => (r1, sink, none, some e)
  | (r1, none) =>
    match result r1 with
    | .error e => (r1, sink, none, some e)
    | .ok line =>
      if fileOpen then
        match r1.meta with
        | none => (r1, sink ++ [line], none, some (Err.attributeError "meta"))
        | some m =>
          match m.key with
          | none => (r1, sink ++ [line], none, some (Err.attributeError "key"))
          | some k => (r1, sink ++ [line], some k, none)
      else
        (r1, sink, none, some (Err.typeError "I/O operation on closed file"))

/-- `write_stream(path, feature, author)`: opens the sink, constructs the
builder with `RecordBuilder(feature)(author)` and returns the pair of
closures. The constructor call raises, so no closures are ever returned and
the sink is untouched. The first component is the captured builder state the
closures would act on, present only when the handles were produced. -/
def write_stream (sink : List String) (feature author : String) (now : Nat) :
    Option RecordBuilderState × List String × Option Err :=
  match RecordBuilder_call feature now with
  | (_, some e) => (none, sink, some e)
  | (b0, none) =>
    match add_author b0 author with
    | (_, some e) => (none, sink, some e)
    | (b1, none) => (some b1, sink, none)

end WritePy

namespace WritePy

/-! Helper lemmas shared by the claim theorems. -/

/-- Every call to `append_body` raises: each branch of the method ends in an
error (completeness-flag AttributeError, `already complete`, `body`
AttributeError, or the `encode` UnboundLocalError). -/
lemma append_body_error (s : RecordBuilderState) (c : String) :
    (append_body s c).2 ≠ none := by
  rcases hc : s.complete with _ | b
  · simp [append_body, hc]
  · rcases b with _ | _
    · rcases hb : s.body with _ | bb
      · simp [append_body, hc, hb]
      · simp [append_body, hc, hb]
    · simp [append_body, hc]

/-- `append_body` never reaches `self.key_builder.update(encode)`: the
accumulator is unchanged on every branch. -/
lemma append_body_key_builder (s : RecordBuilderState) (c : String) :
    (append_body s c).1.key_builder = s.key_builder := by
  rcases hc : s.complete with _ | b
  · simp [append_body, hc]
  · rcases b with _ | _
    · rcases hb : s.body with _ | bb
      · simp [append_body, hc, hb]
      · simp [append_body, hc, hb]
    · simp [append_body, hc]

/-- On a builder that passes the completeness check, `append_body` raises
either the `body` AttributeError (when `body` is unset, as on any state the
source can produce) or the `encode` UnboundLocalError. -/
lemma append_body_open (s : RecordBuilderState) (c : String)
    (h : s.complete = some false) :
    (append_body s c).2 = some (Err.attributeError "body") ∨
    (append_body s c).2 = some (Err.unboundLocalError "encode") := by
  rcases hb : s.body with _ | bb
  · exact Or.inl (by simp [append_body, h, hb])
  · exact Or.inr (by simp [append_body, h, hb])

/-- No branch of `append_body` writes `Metadata.size`. -/
lemma append_body_metaSize (s : RecordBuilderState) (c : String) :
    metaSize (append_body s c).1 = metaSize s := by
  rcases hc : s.complete with _ | b
  · simp [append_body, hc]
  · rcases b with _ | _
    · rcases hb : s.body with _ | bb
      · simp [append_body, hc, hb]
      · simp [append_body, hc, hb, metaSize]
    · simp [append_body, hc]

/-- No branch of `__add_author` writes `Metadata.size`. -/
lemma add_author_metaSize (s : RecordBuilderState) (a : String) :
    metaSize (add_author s a).1 = metaSize s := by
  rcases hc : s.complete with _ | b
  · simp [add_author, hc]
  · rcases b with _ | _
    · rcases hm : s.meta with _ | m
      · simp [add_author, hc, hm]
      · simp [add_author, hc, hm, metaSize]
    · simp [add_author, hc]

/-- No branch of `complete` writes `Metadata.size`. -/
lemma complete_metaSize (s : RecordBuilderState) :
    metaSize (complete s).1 = metaSize s := by
  rcases hc : s.complete with _ | b
  · simp [complete, hc]
  · rcases b with _ | _
    · rcases hk : s.key_builder with _ | kb
      · simp [complete, hc, hk]
      · rcases hm : s.meta with _ | m
        · simp [complete, hc, hk, hm]
        · simp [complete, hc, hk, hm, metaSize]
    · simp [complete, hc]

/-- The constructor call always returns the untouched fresh instance together
with the AttributeError raised by its first statement. -/
lemma RecordBuilder_call_eq (f : String) (now : Nat) :
    RecordBuilder_call f now = ({}, some (Err.attributeError "meta")) := rfl

end WritePy

namespace WritePy

/-! Claim theorems. -/

/-- Claim C1: the sealed key cannot be the digest of the appended body bytes.
The constructor always raises its AttributeError; every `append_body` call
raises without ever feeding the accumulator; and on the concrete
catch-and-continue trace an append mutates `body` to "xyz" while the
accumulator stays empty, so sealing sets `key` to the digest of no bytes,
which differs from the digest of the body's bytes. -/
theorem record_key_digest_decoupled :
    (∀ (f : String) (now : Nat),
      (RecordBuilder_call f now).2 = some (Err.attributeError "meta")) ∧
    (∀ (s : RecordBuilderState) (c : String),
      (append_body s c).2 ≠ none ∧
      (append_body s c).1.key_builder = s.key_builder) ∧
    (append_body ⟨some ⟨none, none, none, some 0, none⟩, some "", some [], some false⟩ "xyz").1.body
      = some "xyz" ∧
    (append_body ⟨some ⟨none, none, none, some 0, none⟩, some "", some [], some false⟩ "xyz").1.key_builder
      = some [] ∧
    metaKey (complete (append_body ⟨some ⟨none, none, none, some 0, none⟩, some "", some [], some false⟩ "xyz").1).1
      = some (md5hex []) ∧
    md5hex [] ≠ md5hex (strBytes "xyz") := by
  refine ⟨fun f now => rfl,
    fun s c => ⟨append_body_error s c, append_body_key_builder s c⟩,
    rfl, rfl, rfl, ?_⟩
  decide

/-- Claim C2: once `complete()` has succeeded on a builder, a second call
raises `Exception('already complete')` at its first statement and returns the
builder state - in particular `Metadata.size` and `Metadata.key` - unchanged. -/
theorem complete_twice_fails_and_preserves (s s1 : RecordBuilderState)
    (h : complete s = (s1, none)) :
    complete s1 = (s1, some (Err.exception "already complete")) ∧
    metaKey (complete s1).1 = metaKey s1 ∧
    metaSize (complete s1).1 = metaSize s1 := by
  have h1 : s1.complete = some true := by
    rcases hc : s.complete with _ | b
    · simp [complete, hc] at h
    · rcases b with _ | _
      · rcases hk : s.key_builder with _ | kb
        · simp [complete, hc, hk] at h
        · rcases hm : s.meta with _ | m
          · simp [complete, hc, hk, hm] at h
          · simp [complete, hc, hk, hm] at h
            subst h
            rfl
      · simp [complete, hc] at h
  have h2 : complete s1 = (s1, some (Err.exception "already complete")) := by
    simp [complete, h1]
  exact ⟨h2, by rw [h2], by rw [h2]⟩

/-- Witness for claim C2: a concrete open builder whose first `complete()`
succeeds, after which the second `complete()` fails and changes nothing. -/
theorem complete_twice_witness :
    complete ⟨some ⟨none, none, none, some 0, none⟩, none, some [], some false⟩ =
      (⟨some ⟨some (md5hex []), none, none, some 0, none⟩, none, some [], some true⟩, none) ∧
    complete ⟨some ⟨some (md5hex []), none, none, some 0, none⟩, none, some [], some true⟩ =
      (⟨some ⟨some (md5hex []), none, none, some 0, none⟩, none, some [], some true⟩,
        some (Err.exception "already complete")) :=
  ⟨rfl,
    (complete_twice_fails_and_preserves
      ⟨some ⟨none, none, none, some 0, none⟩, none, some [], some false⟩ _ rfl).1⟩

/-- Claim C3: on a concrete builder in the author-less state, `append_body`
does fail, but with the `body` AttributeError, never one of the source's own
state-check exceptions; the identical failure occurs after `__add_author`
has succeeded, so no author-before-append ordering is enforced; `result`
before `complete` does raise `Exception('not complete')`. -/
theorem lifecycle_ordering_trace :
    append_body ⟨some ⟨none, none, none, some 0, none⟩, none, some [], some false⟩ "x" =
      (⟨some ⟨none, none, none, some 0, none⟩, none, some [], some false⟩,
        some (Err.attributeError "body")) ∧
    (∀ msg : String,
      (append_body ⟨some ⟨none, none, none, some 0, none⟩, none, some [], some false⟩ "x").2 ≠
        some (Err.exception msg)) ∧
    add_author ⟨some ⟨none, none, none, some 0, none⟩, none, some [], some false⟩ "authX" =
      (⟨some ⟨none, none, some "authX", some 0, none⟩, none, some [], some false⟩, none) ∧
    append_body ⟨some ⟨none, none, some "authX", some 0, none⟩, none, some [], some false⟩ "x" =
      (⟨some ⟨none, none, some "authX", some 0, none⟩, none, some [], some false⟩,
        some (Err.attributeError "body")) ∧
    result ⟨some ⟨none, none, none, some 0, none⟩, none, some [], some false⟩ =
      .error (Err.exception "not complete") :=
  ⟨rfl, fun msg => by simp [append_body], rfl, rfl, rfl⟩

/-- Claim C4: on a concrete open builder with `body` initialised, appending
"ab" and appending "abc" each raise the `encode` UnboundLocalError before
`key_builder.update` runs, so neither the split nor the single-call append
ever feeds the accumulator or produces a key. -/
theorem append_boundary_no_key :
    (append_body ⟨some ⟨none, none, some "a", some 0, none⟩, some "", some [], some false⟩ "ab").2
      = some (Err.unboundLocalError "encode") ∧
    (append_body ⟨some ⟨none, none, some "a", some 0, none⟩, some "", some [], some false⟩ "ab").1.key_builder
      = some [] ∧
    (append_body ⟨some ⟨none, none, some "a", some 0, none⟩, some "", some [], some false⟩ "abc").2
      = some (Err.unboundLocalError "encode") ∧
    (append_body ⟨some ⟨none, none, some "a", some 0, none⟩, some "", some [], some false⟩ "abc").1.key_builder
      = some [] ∧
    metaKey (append_body ⟨some ⟨none, none, some "a", some 0, none⟩, some "", some [], some false⟩ "ab").1
      = none :=
  ⟨rfl, rfl, rfl, rfl, rfl⟩

/-- Claim C5: on a concrete fresh open builder the first append of a 3-byte
chunk raises the `body` AttributeError; no `append_body` call ever changes
`Metadata.size`; and after the 3-, 0- and 5-byte appends the size is still
unset rather than 8. -/
theorem size_accounting_broken :
    append_body ⟨some ⟨none, none, some "a", some 0, none⟩, none, some [], some false⟩ "abc" =
      (⟨some ⟨none, none, some "a", some 0, none⟩, none, some [], some false⟩,
        some (Err.attributeError "body")) ∧
    (∀ (s : RecordBuilderState) (c : String),
      metaSize (append_body s c).1 = metaSize s) ∧
    metaSize (append_body (append_body (append_body
      ⟨some ⟨none, none, some "a", some 0, none⟩, none, some [], some false⟩ "abc").1 "").1 "abcde").1
      = none :=
  ⟨rfl, fun s c => append_body_metaSize s c, rfl⟩

/-- Claim C6: on a sealed state whose metadata fields all happen to be set,
`result` does render the claimed single line layout, but the size field is
the stored `Metadata.size` value (99 here) with no relation to the body's
byte count (2); and on a sealed state whose `feature` is unset - as every
state the source's own constructor path leaves behind - `result` raises
AttributeError instead of rendering. -/
theorem render_trace :
    result ⟨some ⟨some "cafe", some "featA", some "authX", some 7, some 99⟩,
        some "ab", some [], some true⟩ =
      .ok "key:cafe;feature:featA;author:authX;create_at:7;size:99;body:ab\n" ∧
    (strBytes "ab").length = 2 ∧
    (99 : Nat) ≠ 2 ∧
    result ⟨some ⟨some "cafe", none, some "authX", some 7, none⟩,
        some "ab", some [], some true⟩ =
      .error (Err.attributeError "feature") := by
  refine ⟨rfl, by decide, by decide, rfl⟩

/-- Claim C7: `write` never gets past the builder constructor - for every
sink, feature, author, content and time it propagates the constructor's
AttributeError, appends nothing to the sink and returns no key. -/
theorem write_always_raises :
    ∀ (sink : List String) (f a c : String) (now : Nat),
      write sink f a c now = (sink, none, some (Err.attributeError "meta")) :=
  fun _ _ _ _ _ => rfl

/-- Claim C8: `write_stream` never returns its append/complete handles - the
builder constructor raises first and the sink is untouched; and the `append`
closure invoked on a builder whose completion flag is set raises
`Exception('already complete')`, the source's AlreadySealed error. -/
theorem write_stream_always_raises :
    (∀ (sink : List String) (f a : String) (now : Nat),
      write_stream sink f a now = (none, sink, some (Err.attributeError "meta"))) ∧
    (∀ (r : RecordBuilderState) (c : String),
      stream_append { r with complete := some true } c =
        ({ r with complete := some true }, some (Err.exception "already complete"))) := by
  refine ⟨fun _ _ _ _ => rfl, fun r c => ?_⟩
  simp [stream_append, append_body]

/-- Claim C9: `RecordBuilder(feature)` always raises - its first statement
reads `self.meta` before anything assigns it - and even with that statement
skipped the rest of `__init__` errors with the feature still unrecorded,
because the `self.meta = Metadata()` assignment installs a metadata object
whose `feature` is unset; so no builder state ever records the
caller-supplied feature tag. -/
theorem record_builder_init_always_raises :
    (∀ (f : String) (now : Nat),
      RecordBuilder_call f now = ({}, some (Err.attributeError "meta"))) ∧
    (∀ now : Nat,
      (init_rest {} now).2 ≠ none ∧ metaFeature (init_rest {} now).1 = none) ∧
    (∀ (s : RecordBuilderState) (now : Nat),
      metaFeature { s with meta := some (Metadata_new now) } = none) := by
  refine ⟨fun f now => rfl, fun now => ⟨?_, ?_⟩, fun s now => rfl⟩
  · simp [init_rest, Metadata_call]
  · simp [init_rest, Metadata_call, metaFeature]

/-- Claim C10: every `append_body` call raises; the accumulator is never fed;
a call that passes the completeness check raises the `body` AttributeError or
the `encode` UnboundLocalError (for zero-length content as much as any
other); and no operation of the class ever writes `Metadata.size`. -/
theorem append_body_never_succeeds :
    ∀ (s : RecordBuilderState) (c : String),
      (append_body s c).2 ≠ none ∧
      (append_body s c).1.key_builder = s.key_builder ∧
      (s.complete = some false →
        (append_body s c).2 = some (Err.attributeError "body") ∨
        (append_body s c).2 = some (Err.unboundLocalError "encode")) ∧
      metaSize (append_body s c).1 = metaSize s ∧
      (∀ a : String, metaSize (add_author s a).1 = metaSize s) ∧
      metaSize (complete s).1 = metaSize s ∧
      (∀ (f : String) (now : Nat), metaSize (RecordBuilder_call f now).1 = none) :=
  fun s c =>
    ⟨append_body_error s c, append_body_key_builder s c, append_body_open s c,
      append_body_metaSize s c, fun a => add_author_metaSize s a,
      complete_metaSize s, fun _ _ => rfl⟩

/-- Witness for claim C10: the fresh open builder with the completeness flag
false and zero-length content - the append still raises before touching the
accumulator. -/
theorem append_body_never_succeeds_witness :
    (⟨some ⟨none, none, some "a", some 0, none⟩, none, some [], some false⟩ :
        RecordBuilderState).complete = some false ∧
    ((append_body ⟨some ⟨none, none, some "a", some 0, none⟩, none, some [], some false⟩ "").2
        = some (Err.attributeError "body") ∨
      (append_body ⟨some ⟨none, none, some "a", some 0, none⟩, none, some [], some false⟩ "").2
        = some (Err.unboundLocalError "encode")) :=
  ⟨rfl,
    (append_body_never_succeeds
      ⟨some ⟨none, none, some "a", some 0, none⟩, none, some [], some false⟩ "").2.2.1 rfl⟩

end WritePy
